import Mathlib

/-!
Shallow embedding of `src/db.go` of the genji repository: the
transaction-scoped query facade (`DB.View`, `DB.Update`, `DB.Query`,
`DB.Exec`, `DB.QueryDocument`, `DB.ViewTable`, `DB.UpdateTable` and the
transaction-bound `Tx` variants).

The collaborators consumed by `db.go` (the storage/transaction engine
`database.*`, the parser `parser.ParseQuery`, the executor
`query.Query.Run`/`Exec`, and the document model `document.*`) belong to
the same repository but are not under `src/`; they are modelled from the
spec as an abstract environment `Env` of collaborator behaviours, while
the observable effects — the transaction state machine of spec section
4.2, an event log recording which lifecycle operations were invoked, and
a cursor store distinguishing live from detached documents (spec section
3) — live in a state `S` threaded explicitly, mirroring Go's sequential
execution and `defer` ordering (deferred calls run after the return
value of the body has been computed).

A callback `fn` passed to `View`/`Update` is modelled by the function
from the transaction handle to the error it returns: the facade's
control flow inspects `fn` only through its returned error.
-/

namespace Genji

/-- Error taxonomy of spec section 7; `documentNotFound` is the sentinel
`database.ErrDocumentNotFound` that `QueryDocument` returns on zero rows. -/
inductive Err
  | parseFailed (msg : String)
  | txFailed (msg : String)
  | tableNotFound
  | documentNotFound
  | execFailed (msg : String)
  | callbackFailed (msg : String)
  | closeFailed (msg : String)
  | rollbackFailed (msg : String)
  | scanFailed (msg : String)
deriving DecidableEq, Repr

/-- Transaction state machine states (spec section 4.2): a transaction is in
exactly one of three states; `committed` and `rolledBack` are terminal. -/
inductive TxState
  | active
  | committed
  | rolledBack
deriving DecidableEq, Repr

/-- A row/record: an ordered mapping of field name to value (spec section 3,
Document). Values are kept opaque as strings. -/
abbrev Row := List (String × String)

/-- A document is either a live view backed by cursor storage (valid only
while that cursor is open) or a detached owned copy (spec section 3). -/
inductive Doc
  | live (cid : Nat) (idx : Nat)
  | detached (fields : Row)
deriving DecidableEq, Repr

/-- Engine-side storage behind one result cursor. -/
structure CursorData where
  isOpen : Bool
  rows : List Row
deriving DecidableEq, Repr

/-- A result cursor handle (`query.Result`): an index into the cursor store. -/
structure Cursor where
  cid : Nat
deriving DecidableEq, Repr

/-- A table handle (`database.Table`); its contents are irrelevant to the
facade, only lookup success/failure matters. -/
structure Table where
  name : String
deriving DecidableEq, Repr

/-- A parsed query plan (`query.Query`): immutable, opaque to the facade. -/
structure Plan where
  text : String
deriving DecidableEq, Repr

/-- A caller-supplied argument value, opaque to the facade. -/
abbrev Param := String

/-- Observable lifecycle events, used to state which collaborator
operations a facade call actually invoked. -/
inductive Event
  | beganEv (writable : Bool)
  | commitEv
  | rollbackEv
  | ranPlanEv
deriving DecidableEq, Repr

/-- The threaded program state: the state of the transaction begun by the
current scoped call (`none` while no transaction has been begun), the
event log, and the cursor store. -/
structure S where
  txState : Option TxState
  events : List Event
  cursors : List CursorData
deriving DecidableEq, Repr

/-- The clean state at the start of a call sequence. -/
def S.init : S := ⟨none, [], []⟩

/-- Modelled from the spec: the behaviours of the external collaborators
(engine, parser, executor, document model), which are code of this
repository not under `src/`. Each field fixes one collaborator response:
whether `Begin`/`Commit`/`Rollback` fail, the table-lookup result, the
parser (a pure function of the query text, spec section 4.3), the row sets
produced by running a plan over an implicit transaction (`query.Query.Run`)
or over a caller transaction (`query.Query.Exec`), and the errors of
`Result.First`/`Result.Close`. -/
structure Env where
  beginErr : Bool → Option Err
  commitErr : Option Err
  rollbackErr : Option Err
  getTableRes : String → Except Err Table
  parse : String → Except Err Plan
  runPlan : Plan → List Param → Except Err (List Row)
  execPlan : Plan → List Param → Except Err (List Row)
  firstErr : Option Err
  closeErr : Option Err

/-- The transaction handle of `src/db.go` (`Tx` wrapping
`database.Transaction`), tagged read-only or read/write at creation. -/
structure Tx where
  writable : Bool
deriving DecidableEq, Repr

/-- Modelled from the spec: `argsToParams` (same package, not under `src/`)
converts the variadic call-site arguments to parameters preserving
call-site order (spec section 3, Parameter set). -/
def argsToParams (args : List Param) : List Param := args

/-- Modelled from the spec: `parser.ParseQuery` is a pure function of the
query text with no side effects and no engine access (spec section 4.3). -/
def ParseQuery (env : Env) (q : String) : Except Err Plan := env.parse q

/-- Modelled from the spec: `database.Database.Begin` opens a new engine
transaction of the requested mode, or fails without side effects. -/
def engineBegin (env : Env) (writable : Bool) (s : S) : Except Err Tx × S :=
  match env.beginErr writable with
  | some e => (.error e, s)
  | none =>
      (.ok ⟨writable⟩,
       { s with txState := some TxState.active,
                events := s.events ++ [Event.beganEv writable] })

/-- Modelled from the spec: `database.Transaction.Commit` per the state
machine of spec section 4.2 — from `active`, success moves to `committed`
and failure leaves the transaction `active`; once non-active, further
commits are no-ops. The call is recorded in the event log. -/
def Tx.Commit (env : Env) (_tx : Tx) (s : S) : Option Err × S :=
  match s.txState with
  | some TxState.active =>
      match env.commitErr with
      | some e => (some e, { s with events := s.events ++ [Event.commitEv] })
      | none =>
          (none, { s with txState := some TxState.committed,
                          events := s.events ++ [Event.commitEv] })
  | some TxState.committed => (none, { s with events := s.events ++ [Event.commitEv] })
  | some TxState.rolledBack => (none, { s with events := s.events ++ [Event.commitEv] })
  | none => (none, s)

/-- Modelled from the spec: `database.Transaction.Rollback` per the state
machine of spec section 4.2 — from `active` it always reaches
`rolledBack` (possibly reporting an engine error); once non-active it is
an idempotent no-op returning no new error (spec section 8). The call is
recorded in the event log. -/
def Tx.Rollback (env : Env) (_tx : Tx) (s : S) : Option Err × S :=
  match s.txState with
  | some TxState.active =>
      (env.rollbackErr,
       { s with txState := some TxState.rolledBack,
                events := s.events ++ [Event.rollbackEv] })
  | some TxState.committed => (none, { s with events := s.events ++ [Event.rollbackEv] })
  | some TxState.rolledBack => (none, { s with events := s.events ++ [Event.rollbackEv] })
  | none => (none, s)

/-- Modelled from the spec: `database.Transaction.GetTable` — table lookup
by name inside the transaction, failing with `TableNotFound`. -/
def Tx.GetTable (env : Env) (_tx : Tx) (name : String) : Except Err Table :=
  env.getTableRes name

/-- Allocate a fresh open cursor over the given rows. -/
def newCursor (rows : List Row) (s : S) : Cursor × S :=
  (⟨s.cursors.length⟩, { s with cursors := s.cursors ++ [⟨true, rows⟩] })

/-- Mark the cursor at the given index as closed, keeping its stored rows. -/
def closeAt : Nat → List CursorData → List CursorData
  | _, [] => []
  | 0, cd :: rest => ⟨false, cd.rows⟩ :: rest
  | n + 1, cd :: rest => cd :: closeAt n rest

/-- Modelled from the spec: `query.Result.Close` — releases the cursor
(closing it exactly once releases engine-side resources); may itself
report an error. -/
def Result.Close (env : Env) (c : Cursor) (s : S) : Option Err × S :=
  (env.closeErr, { s with cursors := closeAt c.cid s.cursors })

/-- Modelled from the spec: `query.Result.First` — returns the first
document of the result as a live view into cursor storage, `none` when
the result is empty (end-of-sequence is a signal, not an error). -/
def Result.First (env : Env) (c : Cursor) (s : S) : Except Err (Option Doc) :=
  match env.firstErr with
  | some e => .error e
  | none =>
      match s.cursors.get? c.cid with
      | some cd =>
          match cd.rows with
          | [] => .ok none
          | _ :: _ => .ok (some (Doc.live c.cid 0))
      | none => .ok none

/-- Reading a document's fields: a detached document is always readable; a
live document is readable only while its originating cursor is open
(spec section 3: the live view is valid only until the cursor closes). -/
def readDoc (s : S) (d : Doc) : Option Row :=
  match d with
  | Doc.detached fields => some fields
  | Doc.live cid idx =>
      match s.cursors.get? cid with
      | some cd => if cd.isOpen then cd.rows.get? idx else none
      | none => none

/-- Modelled from the spec: `document.FieldBuffer.ScanDocument` — copies
the fields of a readable document into an owned buffer, failing if the
source document is no longer readable. -/
def scanDocument (s : S) (d : Doc) : Except Err Row :=
  match readDoc s d with
  | some fields => .ok fields
  | none => .error (Err.scanFailed "source document is not readable")

/-- Modelled from the spec: `query.Query.Run` — executes the plan over an
implicit transaction owned by the result, producing a cursor of live
documents; touching the engine is recorded as `ranPlanEv`. -/
def Plan.Run (env : Env) (pq : Plan) (params : List Param) (s : S) :
    Except Err Cursor × S :=
  let s1 := { s with events := s.events ++ [Event.ranPlanEv] }
  match env.runPlan pq params with
  | .error e => (.error e, s1)
  | .ok rows =>
      let c := newCursor rows s1
      (.ok c.1, c.2)

/-- Modelled from the spec: `query.Query.Exec` — executes the plan over the
caller's transaction, producing a cursor of live documents; touching the
engine is recorded as `ranPlanEv`. -/
def Plan.Exec (env : Env) (pq : Plan) (params : List Param) (s : S) :
    Except Err Cursor × S :=
  let s1 := { s with events := s.events ++ [Event.ranPlanEv] }
  match env.execPlan pq params with
  | .error e => (.error e, s1)
  | .ok rows =>
      let c := newCursor rows s1
      (.ok c.1, c.2)

/-- `DB.Begin` from `src/db.go`: starts a new transaction of the requested
mode, wrapping the engine transaction in a `Tx` handle. -/
def DB.Begin (env : Env) (writable : Bool) (s : S) : Except Err Tx × S :=
  engineBegin env writable s

/-- `DB.View` from `src/db.go`: begins a read-only transaction, defers an
unconditional `tx.Rollback()` (whose error is discarded by `defer`),
runs `fn`, and returns `fn`'s result. -/
def DB.View (env : Env) (fn : Tx → Option Err) (s : S) : Option Err × S :=
  match DB.Begin env false s with
  | (.error e, s1) => (some e, s1)
  | (.ok tx, s1) =>
      let r := fn tx
      let rb := Tx.Rollback env tx s1
      (r, rb.2)

/-- `DB.Update` from `src/db.go`: begins a read-write transaction, defers an
unconditional `tx.Rollback()` (whose error is discarded by `defer`),
runs `fn`; if `fn` fails its error is returned, otherwise `tx.Commit()`
is called and its result returned. The deferred rollback runs after the
return value has been computed. -/
def DB.Update (env : Env) (fn : Tx → Option Err) (s : S) : Option Err × S :=
  match DB.Begin env true s with
  | (.error e, s1) => (some e, s1)
  | (.ok tx, s1) =>
      match fn tx with
      | some e =>
          let rb := Tx.Rollback env tx s1
          (some e, rb.2)
      | none =>
          let cm := Tx.Commit env tx s1
          let rb := Tx.Rollback env tx cm.2
          (cm.1, rb.2)

/-- `DB.Query` from `src/db.go`: parses the query; on parse failure returns
the parse error without touching the engine; otherwise runs the plan
over an implicit transaction. -/
def DB.Query (env : Env) (q : String) (args : List Param) (s : S) :
    Except Err Cursor × S :=
  match ParseQuery env q with
  | .error e => (.error e, s)
  | .ok pq => Plan.Run env pq (argsToParams args) s

/-- `DB.Exec` from `src/db.go`: `Query`, and on success immediately closes
the result, returning the close error. -/
def DB.Exec (env : Env) (q : String) (args : List Param) (s : S) :
    Option Err × S :=
  match DB.Query env q args s with
  | (.error e, s1) => (some e, s1)
  | (.ok res, s1) => Result.Close env res s1

/-- `DB.QueryDocument` from `src/db.go`: runs `Query`, defers `res.Close()`,
reads the first document, returns `ErrDocumentNotFound` on zero rows,
and otherwise copies the row into a detached `FieldBuffer` before the
deferred close runs. -/
def DB.QueryDocument (env : Env) (q : String) (args : List Param) (s : S) :
    Except Err Doc × S :=
  match DB.Query env q args s with
  | (.error e, s1) => (.error e, s1)
  | (.ok res, s1) =>
      match Result.First env res s1 with
      | .error e =>
          let cl := Result.Close env res s1
          (.error e, cl.2)
      | .ok none =>
          let cl := Result.Close env res s1
          (.error Err.documentNotFound, cl.2)
      | .ok (some r) =>
          match scanDocument s1 r with
          | .error e =>
              let cl := Result.Close env res s1
              (.error e, cl.2)
          | .ok fields =>
              let cl := Result.Close env res s1
              (.ok (Doc.detached fields), cl.2)

/-- `DB.ViewTable` from `src/db.go`: `View` composed with a table lookup by
name inside the transaction; a lookup failure is returned without
invoking `fn`. -/
def DB.ViewTable (env : Env) (tableName : String)
    (fn : Tx → Table → Option Err) (s : S) : Option Err × S :=
  DB.View env
    (fun tx =>
      match Tx.GetTable env tx tableName with
      | .error e => some e
      | .ok tb => fn tx tb) s

/-- `DB.UpdateTable` from `src/db.go`: `Update` composed with a table lookup
by name inside the transaction; a lookup failure is returned without
invoking `fn`. -/
def DB.UpdateTable (env : Env) (tableName : String)
    (fn : Tx → Table → Option Err) (s : S) : Option Err × S :=
  DB.Update env
    (fun tx =>
      match Tx.GetTable env tx tableName with
      | .error e => some e
      | .ok tb => fn tx tb) s

/-- `Tx.Query` from `src/db.go`: parses the query; on parse failure returns
the parse error; otherwise executes the plan over this transaction. -/
def Tx.Query (env : Env) (_tx : Tx) (q : String) (args : List Param) (s : S) :
    Except Err Cursor × S :=
  match ParseQuery env q with
  | .error e => (.error e, s)
  | .ok pq => Plan.Exec env pq (argsToParams args) s

/-- `Tx.QueryDocument` from `src/db.go`: runs the transaction-bound `Query`,
defers `res.Close()`, reads the first document, returns
`ErrDocumentNotFound` on zero rows, and otherwise returns the first
document as obtained from the cursor — without copying it. -/
def Tx.QueryDocument (env : Env) (tx : Tx) (q : String) (args : List Param)
    (s : S) : Except Err Doc × S :=
  match Tx.Query env tx q args s with
  | (.error e, s1) => (.error e, s1)
  | (.ok res, s1) =>
      match Result.First env res s1 with
      | .error e =>
          let cl := Result.Close env res s1
          (.error e, cl.2)
      | .ok none =>
          let cl := Result.Close env res s1
          (.error Err.documentNotFound, cl.2)
      | .ok (some r) =>
          let cl := Result.Close env res s1
          (.ok r, cl.2)

/-- `Tx.Exec` from `src/db.go`: the transaction-bound `Query`, and on
success immediately closes the result, returning the close error. -/
def Tx.Exec (env : Env) (tx : Tx) (q : String) (args : List Param) (s : S) :
    Option Err × S :=
  match Tx.Query env tx q args s with
  | (.error e, s1) => (some e, s1)
  | (.ok res, s1) => Result.Close env res s1

/-- Spec-side composition for the refinement claim: `Query(q, args)`
immediately followed by closing the result, returning `Query`'s error if
`Query` failed and otherwise the result of `Close` (spec section 8). -/
def dbQueryThenClose (env : Env) (q : String) (args : List Param) (s : S) :
    Option Err × S :=
  match DB.Query env q args s with
  | (.error e, s1) => (some e, s1)
  | (.ok res, s1) => Result.Close env res s1

/-- Spec-side composition for the refinement claim, transaction-bound
version: `tx.Query(q, args)` immediately followed by closing the result. -/
def txQueryThenClose (env : Env) (tx : Tx) (q : String) (args : List Param)
    (s : S) : Option Err × S :=
  match Tx.Query env tx q args s with
  | (.error e, s1) => (some e, s1)
  | (.ok res, s1) => Result.Close env res s1

/-- A collaborator environment in which everything succeeds: transactions
begin, commit and roll back cleanly, every query parses, plans yield no
rows, and table lookup fails with `TableNotFound` (no table exists). -/
def envOk : Env where
  beginErr := fun _ => none
  commitErr := none
  rollbackErr := none
  getTableRes := fun _ => .error Err.tableNotFound
  parse := fun _ => .ok ⟨"plan"⟩
  runPlan := fun _ _ => .ok []
  execPlan := fun _ _ => .ok []
  firstErr := none
  closeErr := none

/-- Like `envOk` but every plan yields exactly one row. -/
def envOneRow : Env :=
  { envOk with
      runPlan := fun _ _ => .ok [[("a", "1")]],
      execPlan := fun _ _ => .ok [[("a", "1")]] }

/-- Like `envOk` but rolling back an active transaction reports an error. -/
def envRollbackFails : Env :=
  { envOk with rollbackErr := some (Err.rollbackFailed "disk") }

/-- Like `envOk` but the engine refuses to begin any transaction. -/
def envBeginFails : Env :=
  { envOk with beginErr := fun _ => some (Err.txFailed "busy") }

/-- Like `envOk` but parsing any query fails. -/
def envParseFails : Env :=
  { envOk with parse := fun _ => .error (Err.parseFailed "bad syntax") }

/-- C1: for every callback `fn`, when `Update(fn)` is called and `Begin`
succeeds, by the time `Update` returns the transaction has been driven to
a terminal state (committed or rolled-back, never active); `Rollback` is
invoked on every exit path via the scheduled cleanup, and `Commit` is
invoked exactly when `fn` returned no error. -/
theorem C1_update_transaction_terminal (env : Env) (fn : Tx → Option Err)
    (h : env.beginErr true = none) :
    ((DB.Update env fn S.init).2.txState = some TxState.committed ∨
      (DB.Update env fn S.init).2.txState = some TxState.rolledBack) ∧
    Event.rollbackEv ∈ (DB.Update env fn S.init).2.events ∧
    (Event.commitEv ∈ (DB.Update env fn S.init).2.events ↔ fn ⟨true⟩ = none) := by
  cases hfn : fn ⟨true⟩ with
  | none =>
      cases hc : env.commitErr with
      | none =>
          simp [DB.Update, DB.Begin, engineBegin, Tx.Rollback, Tx.Commit,
            h, hfn, hc, S.init]
      | some e =>
          simp [DB.Update, DB.Begin, engineBegin, Tx.Rollback, Tx.Commit,
            h, hfn, hc, S.init]
  | some e =>
      simp [DB.Update, DB.Begin, engineBegin, Tx.Rollback, Tx.Commit,
        h, hfn, S.init]

/-- Witness for C1 at a concrete environment and callback. -/
theorem C1_update_transaction_terminal_witness :
    envOk.beginErr true = none ∧
    (((DB.Update envOk (fun _ => none) S.init).2.txState = some TxState.committed ∨
       (DB.Update envOk (fun _ => none) S.init).2.txState = some TxState.rolledBack) ∧
     Event.rollbackEv ∈ (DB.Update envOk (fun _ => none) S.init).2.events ∧
     (Event.commitEv ∈ (DB.Update envOk (fun _ => none) S.init).2.events ↔
       (fun _ => none : Tx → Option Err) ⟨true⟩ = none)) :=
  ⟨rfl, C1_update_transaction_terminal envOk (fun _ => none) rfl⟩

/-- C2: for every callback `fn`, `Update(fn)` begins a read-write
transaction; if `fn` returns an error, `Update` returns that error and
never calls `Commit`; if `fn` returns no error, `Update` calls `Commit`
and returns `Commit`'s error (none if `Commit` succeeded). -/
theorem C2_update_error_policy (env : Env) (fn : Tx → Option Err)
    (h : env.beginErr true = none) :
    Event.beganEv true ∈ (DB.Update env fn S.init).2.events ∧
    (∀ e, fn ⟨true⟩ = some e →
      (DB.Update env fn S.init).1 = some e ∧
      Event.commitEv ∉ (DB.Update env fn S.init).2.events) ∧
    (fn ⟨true⟩ = none →
      Event.commitEv ∈ (DB.Update env fn S.init).2.events ∧
      (DB.Update env fn S.init).1 = env.commitErr) := by
  cases hfn : fn ⟨true⟩ with
  | none =>
      cases hc : env.commitErr with
      | none =>
          simp [DB.Update, DB.Begin, engineBegin, Tx.Rollback, Tx.Commit,
            h, hfn, hc, S.init]
      | some e =>
          simp [DB.Update, DB.Begin, engineBegin, Tx.Rollback, Tx.Commit,
            h, hfn, hc, S.init]
  | some e =>
      simp [DB.Update, DB.Begin, engineBegin, Tx.Rollback, Tx.Commit,
        h, hfn, S.init]

/-- Witness for C2 at a concrete environment and a failing callback. -/
theorem C2_update_error_policy_witness :
    envOk.beginErr true = none ∧
    (Event.beganEv true ∈
       (DB.Update envOk (fun _ => some Err.tableNotFound) S.init).2.events ∧
     (∀ e, (fun _ => some Err.tableNotFound : Tx → Option Err) ⟨true⟩ = some e →
       (DB.Update envOk (fun _ => some Err.tableNotFound) S.init).1 = some e ∧
       Event.commitEv ∉
         (DB.Update envOk (fun _ => some Err.tableNotFound) S.init).2.events) ∧
     ((fun _ => some Err.tableNotFound : Tx → Option Err) ⟨true⟩ = none →
       Event.commitEv ∈
         (DB.Update envOk (fun _ => some Err.tableNotFound) S.init).2.events ∧
       (DB.Update envOk (fun _ => some Err.tableNotFound) S.init).1 =
         envOk.commitErr)) :=
  ⟨rfl, C2_update_error_policy envOk (fun _ => some Err.tableNotFound) rfl⟩

/-- C3: for every callback `fn`, `View(fn)` begins a read-only transaction
(writable = false), invokes `fn`, always calls `Rollback` afterward
regardless of `fn`'s outcome, never calls `Commit`, and returns exactly
the error value that `fn` returned. -/
theorem C3_view_read_only_rollback (env : Env) (fn : Tx → Option Err)
    (h : env.beginErr false = none) :
    (DB.View env fn S.init).1 = fn ⟨false⟩ ∧
    Event.beganEv false ∈ (DB.View env fn S.init).2.events ∧
    Event.rollbackEv ∈ (DB.View env fn S.init).2.events ∧
    Event.commitEv ∉ (DB.View env fn S.init).2.events ∧
    (DB.View env fn S.init).2.txState = some TxState.rolledBack := by
  simp [DB.View, DB.Begin, engineBegin, Tx.Rollback, h, S.init]

/-- Witness for C3 at a concrete environment and callback. -/
theorem C3_view_read_only_rollback_witness :
    envOk.beginErr false = none ∧
    ((DB.View envOk (fun _ => some Err.tableNotFound) S.init).1 =
       (fun _ => some Err.tableNotFound : Tx → Option Err) ⟨false⟩ ∧
     Event.beganEv false ∈
       (DB.View envOk (fun _ => some Err.tableNotFound) S.init).2.events ∧
     Event.rollbackEv ∈
       (DB.View envOk (fun _ => some Err.tableNotFound) S.init).2.events ∧
     Event.commitEv ∉
       (DB.View envOk (fun _ => some Err.tableNotFound) S.init).2.events ∧
     (DB.View envOk (fun _ => some Err.tableNotFound) S.init).2.txState =
       some TxState.rolledBack) :=
  ⟨rfl, C3_view_read_only_rollback envOk (fun _ => some Err.tableNotFound) rfl⟩

/-- C4: for every query string, argument list and starting state, if parsing
the query fails then `DB.Query` returns the parse error and the state is
completely unchanged: no transaction is begun, no plan is executed, and
the database state is untouched. -/
theorem C4_query_parse_error_no_side_effects (env : Env) (q : String)
    (args : List Param) (s : S) (e : Err) (h : env.parse q = .error e) :
    DB.Query env q args s = (.error e, s) := by
  simp [DB.Query, ParseQuery, h]

/-- Witness for C4 at a concrete environment whose parser fails. -/
theorem C4_query_parse_error_no_side_effects_witness :
    envParseFails.parse "SELECT" = .error (Err.parseFailed "bad syntax") ∧
    DB.Query envParseFails "SELECT" [] S.init =
      (.error (Err.parseFailed "bad syntax"), S.init) :=
  ⟨rfl, C4_query_parse_error_no_side_effects envParseFails "SELECT" [] S.init
    (Err.parseFailed "bad syntax") rfl⟩

/-- C5: for every environment, query string, argument list and state,
`Exec(q, args)` equals `Query(q, args)` immediately followed by closing
the result — identical side effects (final state) and identical returned
error (`Query`'s error if `Query` failed, otherwise the result of
`Close`) — both for the facade and for the transaction-bound version. -/
theorem C5_exec_is_query_then_close (env : Env) (tx : Tx) (q : String)
    (args : List Param) (s : S) :
    DB.Exec env q args s = dbQueryThenClose env q args s ∧
    Tx.Exec env tx q args s = txQueryThenClose env tx q args s :=
  ⟨rfl, rfl⟩

/-- C6: for every query whose execution succeeds but yields zero rows, both
`DB.QueryDocument` and `Tx.QueryDocument` return the `DocumentNotFound`
error (never a success value). -/
theorem C6_queryDocument_zero_rows_not_found (env : Env) (tx : Tx)
    (q : String) (args : List Param) (pq : Plan)
    (hp : env.parse q = .ok pq)
    (hr : env.runPlan pq (argsToParams args) = .ok [])
    (hx : env.execPlan pq (argsToParams args) = .ok [])
    (hf : env.firstErr = none) :
    (DB.QueryDocument env q args S.init).1 = .error Err.documentNotFound ∧
    (Tx.QueryDocument env tx q args S.init).1 = .error Err.documentNotFound := by
  constructor
  · simp [DB.QueryDocument, DB.Query, ParseQuery, Plan.Run, newCursor,
      Result.First, Result.Close, hp, hr, hf, S.init]
  · simp [Tx.QueryDocument, Tx.Query, ParseQuery, Plan.Exec, newCursor,
      Result.First, Result.Close, hp, hx, hf, S.init]

/-- Witness for C6 at a concrete environment whose queries yield no rows. -/
theorem C6_queryDocument_zero_rows_not_found_witness :
    envOk.parse "SELECT" = .ok ⟨"plan"⟩ ∧
    envOk.runPlan ⟨"plan"⟩ (argsToParams []) = .ok [] ∧
    envOk.execPlan ⟨"plan"⟩ (argsToParams []) = .ok [] ∧
    envOk.firstErr = none ∧
    ((DB.QueryDocument envOk "SELECT" [] S.init).1 =
       .error Err.documentNotFound ∧
     (Tx.QueryDocument envOk ⟨true⟩ "SELECT" [] S.init).1 =
       .error Err.documentNotFound) :=
  ⟨rfl, rfl, rfl, rfl,
    C6_queryDocument_zero_rows_not_found envOk ⟨true⟩ "SELECT" [] ⟨"plan"⟩
      rfl rfl rfl rfl⟩

/-- C7 counterexample: the claim asserts that `QueryDocument` — the sources
cite both `DB.QueryDocument` and `Tx.QueryDocument` — returns a detached
copy of the first row, readable after the cursor has been closed. On a
concrete one-row query, `Tx.QueryDocument` instead returns the live
first row without copying it, and that row is no longer readable in the
state `Tx.QueryDocument` returns, because its cursor has already been
closed by the deferred `res.Close()`. -/
theorem C7_tx_queryDocument_live_counterexample :
    (Tx.QueryDocument envOneRow ⟨true⟩ "SELECT" [] S.init).1 =
      .ok (Doc.live 0 0) ∧
    readDoc (Tx.QueryDocument envOneRow ⟨true⟩ "SELECT" [] S.init).2
      (Doc.live 0 0) = none :=
  ⟨rfl, rfl⟩

/-- C7 amended: for every query that yields at least one row, the facade's
`DB.QueryDocument` returns a detached copy of the first row whose fields
remain readable (and equal to the first row) even though its cursor has
been closed; the transaction-bound `Tx.QueryDocument` instead returns
the live first row without copying, which is not readable once its
cursor has been closed by the deferred cleanup. -/
theorem C7_queryDocument_detached_amended (env : Env) (q : String)
    (args : List Param) (pq : Plan) (row : Row) (rest : List Row)
    (hp : env.parse q = .ok pq)
    (hr : env.runPlan pq (argsToParams args) = .ok (row :: rest))
    (hx : env.execPlan pq (argsToParams args) = .ok (row :: rest))
    (hf : env.firstErr = none) :
    (DB.QueryDocument env q args S.init).1 = .ok (Doc.detached row) ∧
    (DB.QueryDocument env q args S.init).2.cursors.get? 0 =
      some ⟨false, row :: rest⟩ ∧
    readDoc (DB.QueryDocument env q args S.init).2 (Doc.detached row) =
      some row ∧
    (Tx.QueryDocument env ⟨true⟩ q args S.init).1 = .ok (Doc.live 0 0) ∧
    readDoc (Tx.QueryDocument env ⟨true⟩ q args S.init).2 (Doc.live 0 0) =
      none := by
  refine ⟨?_, ?_, ?_, ?_, ?_⟩ <;>
    simp [DB.QueryDocument, DB.Query, Tx.QueryDocument, Tx.Query, ParseQuery,
      Plan.Run, Plan.Exec, newCursor, Result.First, Result.Close, closeAt,
      scanDocument, readDoc, hp, hr, hx, hf, S.init, List.get?]

/-- Witness for the amended C7 at a concrete one-row environment. -/
theorem C7_queryDocument_detached_amended_witness :
    envOneRow.parse "SELECT" = .ok ⟨"plan"⟩ ∧
    envOneRow.runPlan ⟨"plan"⟩ (argsToParams []) = .ok [[("a", "1")]] ∧
    envOneRow.execPlan ⟨"plan"⟩ (argsToParams []) = .ok [[("a", "1")]] ∧
    envOneRow.firstErr = none ∧
    ((DB.QueryDocument envOneRow "SELECT" [] S.init).1 =
       .ok (Doc.detached [("a", "1")]) ∧
     (DB.QueryDocument envOneRow "SELECT" [] S.init).2.cursors.get? 0 =
       some ⟨false, [("a", "1")] :: []⟩ ∧
     readDoc (DB.QueryDocument envOneRow "SELECT" [] S.init).2
       (Doc.detached [("a", "1")]) = some [("a", "1")] ∧
     (Tx.QueryDocument envOneRow ⟨true⟩ "SELECT" [] S.init).1 =
       .ok (Doc.live 0 0) ∧
     readDoc (Tx.QueryDocument envOneRow ⟨true⟩ "SELECT" [] S.init).2
       (Doc.live 0 0) = none) :=
  ⟨rfl, rfl, rfl, rfl,
    C7_queryDocument_detached_amended envOneRow "SELECT" [] ⟨"plan"⟩
      [("a", "1")] [] rfl rfl rfl rfl⟩

/-- C8: for every table name and callbacks, `ViewTable` and `UpdateTable`
look the table up inside the scoped transaction; if the lookup fails the
lookup error is returned, `fn` is never invoked (the outcome does not
depend on `fn`), and the surrounding transaction is still terminated
(rolled back) by the enclosing `View`/`Update` cleanup. -/
theorem C8_table_lookup_short_circuits (env : Env) (name : String)
    (fn g : Tx → Table → Option Err) (e : Err)
    (hv : env.beginErr false = none) (hu : env.beginErr true = none)
    (ht : env.getTableRes name = .error e) :
    (DB.ViewTable env name fn S.init).1 = some e ∧
    DB.ViewTable env name fn S.init = DB.ViewTable env name g S.init ∧
    (DB.ViewTable env name fn S.init).2.txState = some TxState.rolledBack ∧
    (DB.UpdateTable env name fn S.init).1 = some e ∧
    DB.UpdateTable env name fn S.init = DB.UpdateTable env name g S.init ∧
    (DB.UpdateTable env name fn S.init).2.txState = some TxState.rolledBack := by
  simp [DB.ViewTable, DB.UpdateTable, DB.View, DB.Update, DB.Begin,
    engineBegin, Tx.GetTable, Tx.Rollback, hv, hu, ht, S.init]

/-- Witness for C8 at a concrete environment with no tables. -/
theorem C8_table_lookup_short_circuits_witness :
    envOk.beginErr false = none ∧
    envOk.beginErr true = none ∧
    envOk.getTableRes "users" = .error Err.tableNotFound ∧
    ((DB.ViewTable envOk "users" (fun _ _ => none) S.init).1 =
       some Err.tableNotFound ∧
     DB.ViewTable envOk "users" (fun _ _ => none) S.init =
       DB.ViewTable envOk "users" (fun _ _ => some Err.documentNotFound) S.init ∧
     (DB.ViewTable envOk "users" (fun _ _ => none) S.init).2.txState =
       some TxState.rolledBack ∧
     (DB.UpdateTable envOk "users" (fun _ _ => none) S.init).1 =
       some Err.tableNotFound ∧
     DB.UpdateTable envOk "users" (fun _ _ => none) S.init =
       DB.UpdateTable envOk "users" (fun _ _ => some Err.documentNotFound) S.init ∧
     (DB.UpdateTable envOk "users" (fun _ _ => none) S.init).2.txState =
       some TxState.rolledBack) :=
  ⟨rfl, rfl, rfl,
    C8_table_lookup_short_circuits envOk "users" (fun _ _ => none)
      (fun _ _ => some Err.documentNotFound) Err.tableNotFound rfl rfl rfl⟩

/-- C9 counterexample: the claim asserts that a `Rollback` failure on an
otherwise error-free path is not silently dropped. Concretely, with an
engine whose rollback of an active transaction reports an error and a
callback that succeeds, `View` still invokes the deferred rollback and
returns no error at all: the rollback failure is silently dropped even
though no earlier error existed. -/
theorem C9_view_drops_rollback_error_counterexample :
    envRollbackFails.rollbackErr = some (Err.rollbackFailed "disk") ∧
    Event.rollbackEv ∈
      (DB.View envRollbackFails (fun _ => none) S.init).2.events ∧
    (DB.View envRollbackFails (fun _ => none) S.init).1 = none := by
  refine ⟨rfl, ?_, rfl⟩
  simp [DB.View, DB.Begin, engineBegin, Tx.Rollback, envRollbackFails, envOk,
    S.init]

/-- C9 amended: the facade never swallows an error from `fn`, `Begin` or
`Commit` — each is returned to the caller unchanged — but the deferred
cleanup `Rollback`'s own error is always discarded, on every path,
including an otherwise error-free one: the outcome of `View`/`Update` is
completely independent of the rollback error. -/
theorem C9_error_propagation_amended (env : Env) (fn : Tx → Option Err)
    (x : Option Err) :
    (∀ e, env.beginErr false = some e → (DB.View env fn S.init).1 = some e) ∧
    (env.beginErr false = none → (DB.View env fn S.init).1 = fn ⟨false⟩) ∧
    (∀ e, env.beginErr true = some e → (DB.Update env fn S.init).1 = some e) ∧
    (∀ e, env.beginErr true = none → fn ⟨true⟩ = some e →
      (DB.Update env fn S.init).1 = some e) ∧
    (env.beginErr true = none → fn ⟨true⟩ = none →
      (DB.Update env fn S.init).1 = env.commitErr) ∧
    DB.View { env with rollbackErr := x } fn S.init = DB.View env fn S.init ∧
    DB.Update { env with rollbackErr := x } fn S.init =
      DB.Update env fn S.init := by
  refine ⟨?_, ?_, ?_, ?_, ?_, ?_, ?_⟩
  · intro e he
    simp [DB.View, DB.Begin, engineBegin, he]
  · intro hb
    simp [DB.View, DB.Begin, engineBegin, Tx.Rollback, hb, S.init]
  · intro e he
    simp [DB.Update, DB.Begin, engineBegin, he]
  · intro e hb hfn
    simp [DB.Update, DB.Begin, engineBegin, Tx.Rollback, hb, hfn, S.init]
  · intro hb hfn
    cases hc : env.commitErr <;>
      simp [DB.Update, DB.Begin, engineBegin, Tx.Rollback, Tx.Commit, hb, hfn,
        hc, S.init]
  · cases hb : env.beginErr false <;>
      simp [DB.View, DB.Begin, engineBegin, Tx.Rollback, hb, S.init]
  · cases hb : env.beginErr true with
    | some e => simp [DB.Update, DB.Begin, engineBegin, hb]
    | none =>
        cases hfn : fn ⟨true⟩ <;> cases hc : env.commitErr <;>
          simp [DB.Update, DB.Begin, engineBegin, Tx.Rollback, Tx.Commit, hb,
            hfn, hc, S.init]

/-- Witness for the amended C9 at a concrete environment. -/
theorem C9_error_propagation_amended_witness :
    ((∀ e, envOk.beginErr false = some e →
        (DB.View envOk (fun _ => none) S.init).1 = some e) ∧
     (envOk.beginErr false = none →
       (DB.View envOk (fun _ => none) S.init).1 =
         (fun _ => none : Tx → Option Err) ⟨false⟩) ∧
     (∀ e, envOk.beginErr true = some e →
       (DB.Update envOk (fun _ => none) S.init).1 = some e) ∧
     (∀ e, envOk.beginErr true = none →
       (fun _ => none : Tx → Option Err) ⟨true⟩ = some e →
       (DB.Update envOk (fun _ => none) S.init).1 = some e) ∧
     (envOk.beginErr true = none →
       (fun _ => none : Tx → Option Err) ⟨true⟩ = none →
       (DB.Update envOk (fun _ => none) S.init).1 = envOk.commitErr) ∧
     DB.View { envOk with rollbackErr := some (Err.rollbackFailed "disk") }
         (fun _ => none) S.init =
       DB.View envOk (fun _ => none) S.init ∧
     DB.Update { envOk with rollbackErr := some (Err.rollbackFailed "disk") }
         (fun _ => none) S.init =
       DB.Update envOk (fun _ => none) S.init) :=
  C9_error_propagation_amended envOk (fun _ => none)
    (some (Err.rollbackFailed "disk"))

/-- C10: for every pair of callbacks, if `Begin` fails inside `View` or
`Update`, the helper returns the `Begin` error directly, the callback is
never invoked (the outcome does not depend on it), and no `Commit` or
`Rollback` is attempted: the state — event log included — is returned
completely unchanged. -/
theorem C10_begin_failure_short_circuits (env : Env) (fn g : Tx → Option Err)
    (s : S) (e : Err)
    (hv : env.beginErr false = some e) (hu : env.beginErr true = some e) :
    DB.View env fn s = (some e, s) ∧
    DB.Update env fn s = (some e, s) ∧
    DB.View env fn s = DB.View env g s ∧
    DB.Update env fn s = DB.Update env g s := by
  simp [DB.View, DB.Update, DB.Begin, engineBegin, hv, hu]

/-- Witness for C10 at a concrete environment whose engine refuses to begin
any transaction. -/
theorem C10_begin_failure_short_circuits_witness :
    envBeginFails.beginErr false = some (Err.txFailed "busy") ∧
    envBeginFails.beginErr true = some (Err.txFailed "busy") ∧
    (DB.View envBeginFails (fun _ => none) S.init =
       (some (Err.txFailed "busy"), S.init) ∧
     DB.Update envBeginFails (fun _ => none) S.init =
       (some (Err.txFailed "busy"), S.init) ∧
     DB.View envBeginFails (fun _ => none) S.init =
       DB.View envBeginFails (fun _ => some Err.tableNotFound) S.init ∧
     DB.Update envBeginFails (fun _ => none) S.init =
       DB.Update envBeginFails (fun _ => some Err.tableNotFound) S.init) :=
  ⟨rfl, rfl,
    C10_begin_failure_short_circuits envBeginFails (fun _ => none)
      (fun _ => some Err.tableNotFound) S.init (Err.txFailed "busy") rfl rfl⟩

end Genji
